import Mathlib

/-!
Verification of the myeia EIA-API client (src/myeia/api.py) against its
natural-language specification.

The Python code is shallowly embedded: pandas DataFrames become typed lists
of rows, dates become a `Date` structure ordered by a numeric key, the value
column holds unparsed cell strings that the `astype(float)` step coerces, and
the network is a `fetch : String → List RawRow` oracle mapping the request
URL to the decoded `response.data` array.  Exceptions become `Except`/`Option`
results.  All string processing is done over `List Char` with structural
recursion so that every definition evaluates inside the kernel.
-/

set_option autoImplicit false

namespace Myeia

/-- A calendar date (what `pd.to_datetime` produces for the formats used by
the EIA API: bare years and `YYYY-MM-DD`). -/
structure Date where
  year : Nat
  month : Nat
  day : Nat
deriving DecidableEq, Repr

/-- Numeric key embedding the chronological order: for valid dates
(month ≤ 12 < 100, day ≤ 31 < 100) this is order-isomorphic to the
(year, month, day) lexicographic order used by pandas timestamps. -/
def Date.key (d : Date) : Nat :=
  d.year * 10000 + d.month * 100 + d.day

/-- Gregorian leap-year test. -/
def isLeap (y : Nat) : Bool :=
  (y % 4 == 0 && y % 100 != 0) || (y % 400 == 0)

/-- Number of days in a month. -/
def daysInMonth (y m : Nat) : Nat :=
  if m == 2 then (if isLeap y then 29 else 28)
  else if m == 4 || m == 6 || m == 9 || m == 11 then 30
  else 31

/-- Validity of a `Date` (what `pd.to_datetime` accepts). -/
def Date.valid (d : Date) : Bool :=
  1 ≤ d.month && d.month ≤ 12 && 1 ≤ d.day && d.day ≤ daysInMonth d.year d.month

/-- Split a character list at every `sep` character (model of splitting a
string on "-", written structurally so the kernel can evaluate it). -/
def splitSep (sep : Char) : List Char → List (List Char)
  | [] => [[]]
  | c :: cs =>
    let rest := splitSep sep cs
    if c == sep then [] :: rest
    else
      match rest with
      | [] => [[c]]
      | g :: gs => (c :: g) :: gs

/-- Parse a nonempty all-digit character list as a natural number. -/
def digitsToNat : List Char → Option Nat
  | [] => none
  | cs =>
    if cs.all (fun c => c.isDigit) then
      some (cs.foldl (fun acc c => acc * 10 + (c.toNat - 48)) 0)
    else none

/-- Model of `pd.to_datetime` on one cell, restricted to the formats that
occur in EIA responses: a bare 4-digit year parses to January 1st of that
year, `YYYY-MM-DD` parses to the corresponding calendar date, and anything
else (in particular a year string with "-01-01" appended twice) raises. -/
def parseDate (s : String) : Option Date :=
  match splitSep '-' s.toList with
  | [y] =>
    match digitsToNat y with
    | some yn => if y.length == 4 then some ⟨yn, 1, 1⟩ else none
    | none => none
  | [y, m, d] =>
    match digitsToNat y, digitsToNat m, digitsToNat d with
    | some yn, some mn, some dn =>
      if (⟨yn, mn, dn⟩ : Date).valid then some ⟨yn, mn, dn⟩ else none
    | _, _, _ => none
  | _ => none

/-- An unreduced decimal number `num / 10 ^ shift`: the embedding of a
parsed floating-point cell (the pipeline only carries values, it never
computes with them, so no arithmetic on this type is needed). -/
structure Dec where
  num : Int
  shift : Nat
deriving DecidableEq, Repr

/-- Parse the sign and digits of a plain decimal literal: the model of
Python `float(...)` on the numeric strings an EIA value cell can hold.
A string that is neither of the form `digits` nor `digits.digits`
(optionally signed) fails, as `astype(float)` raises on it. -/
def parseFloat (s : String) : Option Dec :=
  let cs := s.toList
  let (sgn, body) : Int × List Char :=
    match cs with
    | '-' :: rest => (-1, rest)
    | rest => (1, rest)
  match splitSep '.' body with
  | [i] =>
    match digitsToNat i with
    | some n => some ⟨sgn * n, 0⟩
    | none => none
  | [i, f] =>
    match digitsToNat i, digitsToNat f with
    | some ip, some fp => some ⟨sgn * (ip * 10 ^ f.length + fp), f.length⟩
    | _, _ => none
  | _ => none

/-- Model of `dateutil.relativedelta` month arithmetic: shift a date by `k` months,
normalizing year/month with floor division and clamping the day to the
length of the target month (Python's `divmod` floors, which is Lean's
Euclidean `/` and `%` on `Int` for a positive divisor). -/
def addMonths (d : Date) (k : Int) : Date :=
  let t : Int := (d.year : Int) * 12 + (d.month : Int) - 1 + k
  let y : Nat := (t / 12).toNat
  let m : Nat := (t % 12).toNat + 1
  ⟨y, m, min d.day (daysInMonth y m)⟩

/-- Lines 88/139: `str(date.today() - relativedelta(months=840))`, the
default `start_date` of both fetch operations. -/
def startDateDefault (today : Date) : Date := addMonths today (-840)

/-- Lines 89/140: `str(date.today() - relativedelta(months=-60))`, the
default `end_date` of both fetch operations. -/
def endDateDefault (today : Date) : Date := addMonths today 60

/-- One element of the decoded `response.data` array: the `period` cell, the
data cell (named by `data_identifier`, "value" by default) kept as its raw
string, and the remaining descriptive columns in their column order. -/
structure RawRow where
  period : String
  value : String
  extra : List (String × String)
deriving DecidableEq, Repr

/-- A row after `format_date`: the period has become the parsed date index. -/
structure DRow where
  date : Date
  value : String
  extra : List (String × String)
deriving DecidableEq, Repr

/-- A row after value coercion: the data cell is a float, or missing (NaN). -/
structure NRow where
  date : Date
  value : Option Dec
  extra : List (String × String)
deriving DecidableEq, Repr

/-- Parse every period with `f`; any failure raises (as `pd.to_datetime`
does), turning the whole conversion into `none`. -/
def mapDates (f : String → Option Date) : List RawRow → Option (List DRow)
  | [] => some []
  | r :: rs =>
    match f r.period, mapDates f rs with
    | some d, some ds => some (⟨d, r.value, r.extra⟩ :: ds)
    | _, _ => none

/-- Lines 68–82: rename `period` to the date index and parse it.  The
granularity dispatch looks only at the first row: when
`len(str(df.index[0])) == 4` the string "-01-01" is appended to every
period before parsing; otherwise each period is parsed as it stands. -/
def format_date (rows : List RawRow) : Option (List DRow) :=
  match rows with
  | [] => some []
  | r0 :: _ =>
    if r0.period.length == 4 then
      mapDates (fun p => parseDate (p ++ "-01-01")) rows
    else
      mapDates parseDate rows

/-- Line 111: `df[(df.index >= start_date) & (df.index <= end_date)]` —
a boolean-mask filter, inclusive at both bounds, applied row by row with no
monotonicity requirement on the index. -/
def filterWindow (sd ed : Date) (rows : List DRow) : List DRow :=
  rows.filter (fun r => sd.key ≤ r.date.key && r.date.key ≤ ed.key)

/-- The descending-date order used by `df.sort_index(ascending=False)`. -/
def dateDescR (a b : DRow) : Prop := b.date.key ≤ a.date.key

instance : DecidableRel dateDescR := fun a b => Nat.decLe b.date.key a.date.key

instance : IsTotal DRow dateDescR := ⟨fun a b => Nat.le_total b.date.key a.date.key⟩

instance : IsTrans DRow dateDescR := ⟨fun _ _ _ h1 h2 => Nat.le_trans h2 h1⟩

/-- Lines 113/197: `df.sort_index(ascending=False)`.  Only sortedness and
the row multiset are relied on (pandas' default quicksort is unstable, so
the order among equal dates is unspecified). -/
def sort_index_desc (rows : List DRow) : List DRow :=
  List.insertionSort dateDescR rows

/-- Lines 115–118 / 199–202: `replace("NA", np.nan)` followed by
`astype(float)`.  The `if "NA" in ...` guard is semantically inert since
`replace` only rewrites cells equal to "NA".  An "NA" cell becomes a missing
value (`none`, i.e. NaN); every other cell must parse as a float, otherwise
`astype` raises and the whole conversion fails. -/
def astypeFloat : List DRow → Option (List NRow)
  | [] => some []
  | r :: rs =>
    match (if r.value == "NA" then some none else (parseFloat r.value).map some),
          astypeFloat rs with
    | some v, some ns => some (⟨r.date, v, r.extra⟩ :: ns)
    | _, _ => none

/-- Lines 124/204: the descriptive columns recognized by the rename loop. -/
def descriptions : List String := ["series-description", "seriesDescription", "productName"]

/-- The loop `for col in df.columns: if col in descriptions: ... break` — the first
descriptive column of the frame together with its row-0 cell (the period and
value columns are never in `descriptions`, so scanning the extra columns is
equivalent). -/
def findDescPair (extra : List (String × String)) : Option (String × String) :=
  extra.find? (fun p => descriptions.contains p.1)

/-- One cell of the returned frame: a float (or NaN) from the value column,
or a string from a descriptive column. -/
inductive Cell where
  | num (v : Option Dec)
  | str (s : String)
deriving DecidableEq, Repr

/-- A date-indexed result frame: column labels plus one (date, cells) pair
per row. -/
structure Table where
  cols : List String
  rows : List (Date × List Cell)
deriving DecidableEq, Repr

/-- The frame with all of its remaining columns (value column first),
returned when no descriptive column is found. -/
def fullTable (di : String) (rows : List NRow) : Table :=
  match rows with
  | [] => ⟨[], []⟩
  | r0 :: _ =>
    ⟨di :: r0.extra.map Prod.fst,
     rows.map (fun r => (r.date, Cell.num r.value :: r.extra.map (fun p => Cell.str p.2)))⟩

/-- Lines 126–130 / 207–211: rename the value column to the row-0 cell of
the first descriptive column and keep only that column; with no descriptive
column present the frame is returned unchanged. -/
def selectSingle (di : String) (rows : List NRow) : Table :=
  match rows with
  | [] => ⟨[], []⟩
  | r0 :: _ =>
    match findDescPair r0.extra with
    | some pr => ⟨[pr.2], rows.map (fun r => (r.date, [Cell.num r.value]))⟩
    | none => fullTable di rows

/-- Selection `df[c]` for one row after the value column was renamed to `descVal`:
a label that matches no column raises a KeyError (`none`). -/
def cellOf (descVal : String) (r : NRow) (c : String) : Option Cell :=
  if c == descVal then some (Cell.num r.value)
  else (r.extra.find? (fun p => p.1 == c)).map (fun p => Cell.str p.2)

/-- The cells of one output row for the selected column labels. -/
def rowCells (descVal : String) (r : NRow) : List String → Option (List Cell)
  | [] => some []
  | c :: cs =>
    match cellOf descVal r c, rowCells descVal r cs with
    | some x, some xs => some (x :: xs)
    | _, _ => none

/-- Selection `df[facet]`: select the labelled columns of every row. -/
def selectRows (descVal : String) (cols : List String) :
    List NRow → Option (List (Date × List Cell))
  | [] => some []
  | r :: rs =>
    match rowCells descVal r cols, selectRows descVal cols rs with
    | some cs, some rest => some ((r.date, cs) :: rest)
    | _, _ => none

/-- Lines 212–218: the list/list branch of the column selection.
`facet.append(df[col].iloc[0])` mutates the caller's facet list in place
before `df = df[facet]`; the returned pair is the facet list as it stands
after the call together with the selection result (`none` = KeyError). -/
def selectMulti (di : String) (facet : List String) (rows : List NRow) :
    List String × Option Table :=
  match rows with
  | [] => (facet, none)
  | r0 :: _ =>
    match findDescPair r0.extra with
    | some pr =>
      let facetAfter := facet ++ [pr.2]
      match selectRows pr.2 facetAfter rows with
      | some rs => (facetAfter, some ⟨facetAfter, rs⟩)
      | none => (facetAfter, none)
    | none => (facet, some (fullTable di rows))

/-- The errors the embedded operations can surface. -/
inductive Err where
  /-- An HTTPError carrying the final status (raise_for_status / backoff). -/
  | http (status : Nat)
  /-- Line 179: ValueError raised when facet and series are not both str or
  both list; its message names both received arguments. -/
  | mismatch (facet series : String ⊕ List String)
  /-- Line 192: ValueError "Error getting data for series: {series}." — it
  names the requested series. -/
  | emptyData (series : String ⊕ List String)
  /-- A `pd.to_datetime` failure on a malformed period or bound string. -/
  | dateParse
  /-- An `astype(float)` failure on a non-numeric, non-"NA" value cell. -/
  | dtype
  /-- A column selection whose label is not a column (KeyError). -/
  | keyError
  /-- get_series on a zero-row fetch: `pd.DataFrame([])` has no columns, so
  the date-window comparison on its integer index and the `df["value"]`
  lookup fail; the resulting error does not mention the requested series. -/
  | emptyFrame
deriving DecidableEq, Repr

/-- Line 42: the service base URL. -/
def base_url : String := "https://api.eia.gov/v2/"

/-- Lines 105–106: the APIv1-style request URL of get_series. -/
def seriesUrl (token series_id : String) : String :=
  base_url ++ "seriesid/" ++ series_id ++ "?api_key=" ++ token

/-- Lines 107–131: everything get_series does after the fetch: format_date,
inclusive date-window filter, sort descending, NA/float coercion, early
return of the frame when the window emptied it, then the description-based
column selection. -/
def seriesPipeline (data_identifier start_date end_date : String)
    (rows : List RawRow) : Except Err Table :=
  match rows with
  | [] => .error .emptyFrame
  | r0 :: _ =>
    match format_date rows with
    | none => .error .dateParse
    | some drows =>
      match parseDate start_date, parseDate end_date with
      | some sd, some ed =>
        match astypeFloat (sort_index_desc (filterWindow sd ed drows)) with
        | none => .error .dtype
        | some nrows =>
          match nrows with
          | [] => .ok ⟨data_identifier :: r0.extra.map Prod.fst, []⟩
          | _ :: _ => .ok (selectSingle data_identifier nrows)
      | _, _ => .error .dateParse

/-- Lines 84–131: get_series.  `fetch` maps a request URL to the decoded
`response.data` array. -/
def get_series (fetch : String → List RawRow) (token series_id : String)
    (data_identifier : String) (start_date end_date : String) : Except Err Table :=
  seriesPipeline data_identifier start_date end_date (fetch (seriesUrl token series_id))

/-- Lines 172–174: one `&facets[f][]=s` query parameter per zipped
(facet, series) pair of the two lists. -/
def multiFacetParams : List String → List String → String
  | f :: fs, s :: ss => "&facets[" ++ f ++ "][]=" ++ s ++ multiFacetParams fs ss
  | _, _ => ""

/-- Lines 171–181: the facet filter of the query string, or the ValueError
when the two arguments are not of the same kind. -/
def facetParams :
    (String ⊕ List String) → (String ⊕ List String) → Except Err String
  | .inr fs, .inr ss => .ok (multiFacetParams fs ss)
  | .inl f, .inl s => .ok ("&facets[" ++ f ++ "][]=" ++ s)
  | f, s => .error (.mismatch f s)

/-- Lines 166–187: the full APIv2 request URL of get_series_via_route. -/
def routeUrl (token route frequency data_identifier start_date end_date : String)
    (facetStr : String) (offset limit : Nat) : String :=
  base_url ++ route ++ "/data/?api_key=" ++ token ++ "&frequency=" ++ frequency
    ++ "&data[]=" ++ data_identifier
    ++ (if !start_date.isEmpty && !end_date.isEmpty then
          "&start=" ++ start_date ++ "&end=" ++ end_date
        else "")
    ++ facetStr
    ++ "&sort[0][column]=period&sort[0][direction]=desc&offset=" ++ toString offset
    ++ "&length=" ++ toString limit

instance instDecEqExcept {ε α : Type} [DecidableEq ε] [DecidableEq α] :
    DecidableEq (Except ε α) := fun x y =>
  match x, y with
  | .error a, .error b => decidable_of_iff (a = b) (by simp)
  | .ok a, .ok b => decidable_of_iff (a = b) (by simp)
  | .error _, .ok _ => isFalse (by simp)
  | .ok _, .error _ => isFalse (by simp)

/-- What one call to get_series_via_route did: the request URLs it actually
issued, the value of the caller's `facet` argument after the call (Python
lists are mutated in place), and the returned frame or raised error. -/
structure ViaRouteOutcome where
  urls : List String
  facetAfter : String ⊕ List String
  result : Except Err Table
deriving DecidableEq, Repr

/-- Lines 189–219: everything get_series_via_route does after the fetch: the
empty-data ValueError naming the series, format_date, sort descending,
NA/float coercion and the branch-dependent column selection.  Returns the
facet argument as it stands after the call together with the result. -/
def viaRoutePipeline (data_identifier : String)
    (series facet : String ⊕ List String) (rows : List RawRow) :
    (String ⊕ List String) × Except Err Table :=
  match rows with
  | [] => (facet, .error (.emptyData series))
  | r0 :: rs =>
    match format_date (r0 :: rs) with
    | none => (facet, .error .dateParse)
    | some drows =>
      match astypeFloat (sort_index_desc drows) with
      | none => (facet, .error .dtype)
      | some nrows =>
        match facet, series with
        | .inr fs, .inr _ =>
          match selectMulti data_identifier fs nrows with
          | (fa, some t) => (.inr fa, .ok t)
          | (fa, none) => (.inr fa, .error .keyError)
        | .inl f, .inl _ => (.inl f, .ok (selectSingle data_identifier nrows))
        | f, _ => (f, .ok (fullTable data_identifier nrows))

/-- Lines 133–219: get_series_via_route.  One request URL is built (with the
facet/series kind check first, which raises before anything is fetched), the
response is fetched once, then the pipeline above runs on it. -/
def get_series_via_route (fetch : String → List RawRow) (token route : String)
    (series : String ⊕ List String) (frequency : String)
    (facet : String ⊕ List String) (start_date end_date : String)
    (data_identifier : String) (offset limit : Nat) : ViaRouteOutcome :=
  match facetParams facet series with
  | .error e => ⟨[], facet, .error e⟩
  | .ok fp =>
    let url := routeUrl token route frequency data_identifier start_date end_date fp offset limit
    let p := viaRoutePipeline data_identifier series facet (fetch url)
    ⟨[url], p.1, p.2⟩

/-- Line 48: `max_tries=10` of the backoff decorator. -/
def max_tries : Nat := 10

/-- Lines 45–52, the `backoff.on_exception(backoff.expo, HTTPError,
max_tries=10, raise_on_giveup=True, jitter=backoff.full_jitter,
giveup = status == 403)` wrapper around get_response: `statuses i` is the
HTTP status of attempt `i` (0-based); a status below 400 means
`raise_for_status` does not raise.  `fuel` is the number of tries the
decorator still allows.  Returns the number of attempts actually made and
either the index of the successful attempt or the status of the error that
surfaced. -/
def runAttempts (statuses : Nat → Nat) (i : Nat) : Nat → Nat × Except Nat Nat
  | 0 => (0, .error (statuses i))
  | fuel + 1 =>
    if statuses i < 400 then (1, .ok i)
    else if statuses i == 403 || fuel == 0 then (1, .error (statuses i))
    else
      ((runAttempts statuses (i + 1) fuel).1 + 1, (runAttempts statuses (i + 1) fuel).2)

/-- The decorated get_response as the caller sees it: up to `max_tries`
attempts starting at attempt 0. -/
def get_response (statuses : Nat → Nat) : Nat × Except Nat Nat :=
  runAttempts statuses 0 max_tries

/-- Model of `backoff.expo` with its default base 2: the target wait before retry `n`. -/
def expoWait (n : Nat) : Nat := 2 ^ n

/-- Model of `backoff.full_jitter`: a random fraction `r` drawn uniformly from [0, 1]
scales the target wait. -/
def fullJitter (w r : ℚ) : ℚ := r * w

/-!
## Helper lemmas

Structural facts about the embedded pipeline shared by the claim theorems.
-/

theorem forall₂_mem_right {α β : Type} {R : α → β → Prop} :
    ∀ {l₁ : List α} {l₂ : List β}, List.Forall₂ R l₁ l₂ →
      ∀ {b : β}, b ∈ l₂ → ∃ a ∈ l₁, R a b := by
  intro l₁ l₂ h
  induction h with
  | nil => intro b hb; cases hb
  | cons hr _ ih =>
    intro b hb
    rcases List.mem_cons.mp hb with hb | hb
    · exact ⟨_, List.mem_cons_self .., hb ▸ hr⟩
    · rcases ih hb with ⟨a, ha, hab⟩
      exact ⟨a, List.mem_cons_of_mem _ ha, hab⟩

theorem mapDates_forall₂ {f : String → Option Date} :
    ∀ {rows : List RawRow} {ds : List DRow}, mapDates f rows = some ds →
      List.Forall₂ (fun r d => f r.period = some d.date ∧ d.value = r.value ∧ d.extra = r.extra)
        rows ds := by
  intro rows
  induction rows with
  | nil =>
    intro ds h
    simp only [mapDates, Option.some.injEq] at h
    exact h ▸ List.Forall₂.nil
  | cons r rs ih =>
    intro ds h
    unfold mapDates at h
    cases hf : f r.period with
    | none => rw [hf] at h; simp at h
    | some d =>
      rw [hf] at h
      cases hm : mapDates f rs with
      | none => rw [hm] at h; simp at h
      | some ds2 =>
        rw [hm] at h
        simp only [Option.some.injEq] at h
        subst h
        exact List.Forall₂.cons ⟨hf, rfl, rfl⟩ (ih hm)

theorem astypeFloat_forall₂ :
    ∀ {l : List DRow} {ns : List NRow}, astypeFloat l = some ns →
      List.Forall₂ (fun d n => n.date = d.date ∧ n.extra = d.extra ∧
        n.value = (if d.value = "NA" then none else parseFloat d.value) ∧
        (d.value = "NA" ∨ (parseFloat d.value).isSome)) l ns := by
  intro l
  induction l with
  | nil =>
    intro ns h
    simp only [astypeFloat, Option.some.injEq] at h
    exact h ▸ List.Forall₂.nil
  | cons r rs ih =>
    intro ns h
    unfold astypeFloat at h
    by_cases hna : r.value = "NA"
    · simp only [hna, beq_self_eq_true, if_true] at h
      cases hm : astypeFloat rs with
      | none => rw [hm] at h; simp at h
      | some ns2 =>
        rw [hm] at h
        simp only [Option.some.injEq] at h
        subst h
        exact List.Forall₂.cons ⟨rfl, rfl, by simp [hna], Or.inl hna⟩ (ih hm)
    · have hbe : (r.value == "NA") = false := by
        simp [hna]
      rw [hbe] at h
      simp only [Bool.false_eq_true, if_false] at h
      cases hp : parseFloat r.value with
      | none => rw [hp] at h; simp at h
      | some v =>
        rw [hp] at h
        cases hm : astypeFloat rs with
        | none => rw [hm] at h; simp at h
        | some ns2 =>
          rw [hm] at h
          simp only [Option.map_some', Option.some.injEq] at h
          subst h
          exact List.Forall₂.cons ⟨rfl, rfl, by simp [hna, hp], Or.inr (by simp [hp])⟩ (ih hm)

theorem astypeFloat_dates :
    ∀ {l : List DRow} {ns : List NRow}, astypeFloat l = some ns →
      ns.map NRow.date = l.map DRow.date := by
  intro l ns h
  have h2 := astypeFloat_forall₂ h
  clear h
  induction h2 with
  | nil => rfl
  | cons hr _ ih => simp_all

theorem astypeFloat_none_of_bad {l : List DRow} {r : DRow} (hr : r ∈ l)
    (h1 : r.value ≠ "NA") (h2 : parseFloat r.value = none) : astypeFloat l = none := by
  induction l with
  | nil => cases hr
  | cons x xs ih =>
    rcases List.mem_cons.mp hr with hx | hx
    · subst hx
      unfold astypeFloat
      have hbe : (r.value == "NA") = false := by simp [h1]
      rw [hbe]
      simp [h2]
    · unfold astypeFloat
      rw [ih hx]
      split <;> simp_all

theorem sort_index_desc_perm (l : List DRow) : (sort_index_desc l).Perm l :=
  List.perm_insertionSort dateDescR l

theorem sort_index_desc_sorted (l : List DRow) : List.Sorted dateDescR (sort_index_desc l) :=
  List.sorted_insertionSort dateDescR l



theorem selectRows_dates {dv : String} {cols : List String} :
    ∀ {rows : List NRow} {rs : List (Date × List Cell)},
      selectRows dv cols rows = some rs → rs.map Prod.fst = rows.map NRow.date := by
  intro rows
  induction rows with
  | nil =>
    intro rs h
    simp only [selectRows, Option.some.injEq] at h
    simp [← h]
  | cons r rest ih =>
    intro rs h
    unfold selectRows at h
    cases hc : rowCells dv r cols with
    | none => rw [hc] at h; simp at h
    | some cs =>
      rw [hc] at h
      cases hr : selectRows dv cols rest with
      | none => rw [hr] at h; simp at h
      | some rest2 =>
        rw [hr] at h
        simp only [Option.some.injEq] at h
        subst h
        simp [ih hr]

theorem fullTable_dates (di : String) (rows : List NRow) :
    (fullTable di rows).rows.map Prod.fst = rows.map NRow.date := by
  cases rows with
  | nil => rfl
  | cons r0 rest => simp [fullTable]

theorem selectSingle_dates (di : String) (rows : List NRow) :
    (selectSingle di rows).rows.map Prod.fst = rows.map NRow.date := by
  cases rows with
  | nil => rfl
  | cons r0 rest =>
    cases hd : findDescPair r0.extra with
    | some pr => simp [selectSingle, hd]
    | none =>
      simp only [selectSingle, hd]
      exact fullTable_dates di (r0 :: rest)

theorem selectMulti_dates {di : String} {fs : List String} {rows : List NRow}
    {fa : List String} {t : Table} (h : selectMulti di fs rows = (fa, some t)) :
    t.rows.map Prod.fst = rows.map NRow.date := by
  cases rows with
  | nil => simp [selectMulti] at h
  | cons r0 rest =>
    cases hd : findDescPair r0.extra with
    | some pr =>
      cases hs : selectRows pr.2 (fs ++ [pr.2]) (r0 :: rest) with
      | none => simp [selectMulti, hd, hs] at h
      | some rs =>
        simp only [selectMulti, hd, hs, Prod.mk.injEq, Option.some.injEq] at h
        rw [← h.2]
        exact selectRows_dates hs
    | none =>
      simp only [selectMulti, hd, Prod.mk.injEq, Option.some.injEq] at h
      rw [← h.2]
      exact fullTable_dates di (r0 :: rest)

theorem selectMulti_facetAfter (di : String) (fs : List String) (rows : List NRow) :
    (selectMulti di fs rows).1 = fs ∨ ∃ lab, (selectMulti di fs rows).1 = fs ++ [lab] := by
  cases rows with
  | nil => exact Or.inl rfl
  | cons r0 rest =>
    cases hd : findDescPair r0.extra with
    | some pr =>
      right
      refine ⟨pr.2, ?_⟩
      cases hs : selectRows pr.2 (fs ++ [pr.2]) (r0 :: rest) <;>
        simp [selectMulti, hd, hs]
    | none => left; simp [selectMulti, hd]

theorem sorted_dates_pairwise {l : List DRow} (h : List.Sorted dateDescR l) :
    List.Pairwise (fun a b : Date => b.key ≤ a.key) (l.map DRow.date) :=
  List.pairwise_map.mpr h

theorem runAttempts_le (s : Nat → Nat) : ∀ (fuel : Nat) (i : Nat),
    (runAttempts s i fuel).1 ≤ fuel := by
  intro fuel
  induction fuel with
  | zero => intro i; simp [runAttempts]
  | succ f ih =>
    intro i
    unfold runAttempts
    split
    · simp
    · split
      · simp
      · have := ih (i + 1)
        show (runAttempts s (i + 1) f).1 + 1 ≤ f + 1
        omega

theorem runAttempts_allfail (s : Nat → Nat) : ∀ (fuel : Nat) (i : Nat), 1 ≤ fuel →
    (∀ j, j < fuel → 400 ≤ s (i + j) ∧ s (i + j) ≠ 403) →
    runAttempts s i fuel = (fuel, .error (s (i + fuel - 1))) := by
  intro fuel
  induction fuel with
  | zero => intro i h _; omega
  | succ f ih =>
    intro i _ hall
    have h0 := hall 0 (by omega)
    rw [Nat.add_zero] at h0
    unfold runAttempts
    rw [if_neg (by omega)]
    by_cases hf : f = 0
    · subst hf
      rw [if_pos (by simp)]
      simp
    · rw [if_neg (by simp only [Bool.or_eq_true, beq_iff_eq]; push_neg; omega)]
      have hrec := ih (i + 1) (by omega) (fun j hj => by
        have h1 := hall (j + 1) (by omega)
        rw [show i + (j + 1) = i + 1 + j from by omega] at h1
        exact h1)
      rw [hrec]
      rw [show i + 1 + f - 1 = i + (f + 1) - 1 from by omega]

theorem runAttempts_success (s : Nat → Nat) : ∀ (k fuel i : Nat), k < fuel →
    (∀ j, j < k → 400 ≤ s (i + j) ∧ s (i + j) ≠ 403) →
    s (i + k) < 400 →
    runAttempts s i fuel = (k + 1, .ok (i + k)) := by
  intro k
  induction k with
  | zero =>
    intro fuel i hk _ hsucc
    rw [Nat.add_zero] at hsucc
    cases fuel with
    | zero => omega
    | succ f =>
      unfold runAttempts
      rw [if_pos hsucc]
      simp
  | succ k2 ih =>
    intro fuel i hk hall hsucc
    cases fuel with
    | zero => omega
    | succ f =>
      have h0 := hall 0 (by omega)
      rw [Nat.add_zero] at h0
      unfold runAttempts
      rw [if_neg (by omega)]
      have hfne : f ≠ 0 := by omega
      rw [if_neg (by simp only [Bool.or_eq_true, beq_iff_eq]; push_neg; exact ⟨h0.2, hfne⟩)]
      have hrec := ih f (i + 1) (by omega) (fun j hj => by
        have h1 := hall (j + 1) (by omega)
        rw [show i + (j + 1) = i + 1 + j from by omega] at h1
        exact h1)
        (by rw [show i + 1 + k2 = i + (k2 + 1) from by omega]; exact hsucc)
      rw [hrec]
      rw [show i + 1 + k2 = i + (k2 + 1) from by omega]


theorem runAttempts_giveup (s : Nat → Nat) (i fuel : Nat) (h : s i = 403) (hf : 1 ≤ fuel) :
    runAttempts s i fuel = (1, .error 403) := by
  cases fuel with
  | zero => omega
  | succ f =>
    unfold runAttempts
    rw [if_neg (by omega)]
    rw [if_pos (by simp [h])]
    rw [h]

theorem startDateDefault_spec (t : Date) (h1 : 1 ≤ t.month) (h2 : t.month ≤ 12)
    (h3 : 70 ≤ t.year) :
    startDateDefault t = ⟨t.year - 70, t.month, min t.day (daysInMonth (t.year - 70) t.month)⟩ := by
  unfold startDateDefault addMonths
  have hy : (((t.year : Int) * 12 + (t.month : Int) - 1 + -840) / 12).toNat = t.year - 70 := by
    omega
  have hm : (((t.year : Int) * 12 + (t.month : Int) - 1 + -840) % 12).toNat + 1 = t.month := by
    omega
  simp only [hy, hm]

theorem endDateDefault_spec (t : Date) (h1 : 1 ≤ t.month) (h2 : t.month ≤ 12) :
    endDateDefault t = ⟨t.year + 5, t.month, min t.day (daysInMonth (t.year + 5) t.month)⟩ := by
  unfold endDateDefault addMonths
  have hy : (((t.year : Int) * 12 + (t.month : Int) - 1 + 60) / 12).toNat = t.year + 5 := by
    omega
  have hm : (((t.year : Int) * 12 + (t.month : Int) - 1 + 60) % 12).toNat + 1 = t.month := by
    omega
  simp only [hy, hm]

theorem format_date_length {rows : List RawRow} {drows : List DRow}
    (h : format_date rows = some drows) : drows.length = rows.length := by
  cases rows with
  | nil =>
    simp only [format_date, Option.some.injEq] at h
    simp [← h]
  | cons r0 rest =>
    simp only [format_date] at h
    split at h <;> exact (mapDates_forall₂ h).length_eq.symm

theorem format_date_extra_mem {rows : List RawRow} {drows : List DRow}
    (h : format_date rows = some drows) {d : DRow} (hd : d ∈ drows) :
    ∃ r ∈ rows, d.extra = r.extra := by
  cases rows with
  | nil =>
    simp only [format_date, Option.some.injEq] at h
    rw [← h] at hd
    cases hd
  | cons r0 rest =>
    simp only [format_date] at h
    split at h <;>
    · obtain ⟨r, hr, hrel⟩ := forall₂_mem_right (mapDates_forall₂ h) hd
      exact ⟨r, hr, hrel.2.2⟩

theorem astype_extra_mem {l : List DRow} {ns : List NRow}
    (h : astypeFloat l = some ns) {n : NRow} (hn : n ∈ ns) :
    ∃ d ∈ l, n.extra = d.extra := by
  obtain ⟨d, hd, hrel⟩ := forall₂_mem_right (astypeFloat_forall₂ h) hn
  exact ⟨d, hd, hrel.2.1⟩

theorem pipeline_extra_isSome {rows : List RawRow} {drows : List DRow} {nrows : List NRow}
    (hfd : format_date rows = some drows)
    (hat : astypeFloat (sort_index_desc drows) = some nrows)
    (hdesc : ∀ r ∈ rows, (findDescPair r.extra).isSome) :
    ∀ n ∈ nrows, (findDescPair n.extra).isSome := by
  intro n hn
  obtain ⟨d, hd, hde⟩ := astype_extra_mem hat hn
  have hd2 : d ∈ drows := ((sort_index_desc_perm drows).mem_iff).mp hd
  obtain ⟨r, hr, hre⟩ := format_date_extra_mem hfd hd2
  rw [hde, hre]
  exact hdesc r hr

theorem astypeFloat_total : ∀ {l : List DRow},
    (∀ r ∈ l, r.value = "NA" ∨ (parseFloat r.value).isSome) →
    ∃ ns, astypeFloat l = some ns := by
  intro l
  induction l with
  | nil => exact fun _ => ⟨[], rfl⟩
  | cons r rs ih =>
    intro h
    obtain ⟨ns, hns⟩ := ih (fun x hx => h x (List.mem_cons_of_mem _ hx))
    by_cases hna : r.value = "NA"
    · exact ⟨⟨r.date, none, r.extra⟩ :: ns, by unfold astypeFloat; simp [hna, hns]⟩
    · have hsome : (parseFloat r.value).isSome := by
        rcases h r (List.mem_cons_self ..) with h1 | h2
        · exact absurd h1 hna
        · exact h2
      obtain ⟨v, hv⟩ := Option.isSome_iff_exists.mp hsome
      exact ⟨⟨r.date, some v, r.extra⟩ :: ns, by unfold astypeFloat; simp [hna, hv, hns]⟩

theorem table_rows_facts {t : Table} {nrows : List NRow} {drows : List DRow}
    (hmap : t.rows.map Prod.fst = nrows.map NRow.date)
    (hdates : nrows.map NRow.date = (sort_index_desc drows).map DRow.date)
    (hne : nrows ≠ []) :
    t.rows ≠ [] ∧
      List.Pairwise (fun a b : Date × List Cell => b.1.key ≤ a.1.key) t.rows := by
  constructor
  · intro hempty
    apply hne
    have : nrows.map NRow.date = [] := by rw [← hmap, hempty]; rfl
    exact List.map_eq_nil_iff.mp this
  · have hp1 : List.Pairwise (fun a b : Date => b.key ≤ a.key) (t.rows.map Prod.fst) := by
      rw [hmap, hdates]
      exact sorted_dates_pairwise (sort_index_desc_sorted drows)
    exact List.pairwise_map.mp hp1


theorem viaRoutePipeline_facetAfter (di : String) (series facet : String ⊕ List String)
    (rows : List RawRow) :
    (viaRoutePipeline di series facet rows).1 = facet ∨
      ∃ fs lab, facet = Sum.inr fs ∧
        (viaRoutePipeline di series facet rows).1 = Sum.inr (fs ++ [lab]) := by
  cases rows with
  | nil => exact Or.inl rfl
  | cons r0 rs =>
    cases hfd : format_date (r0 :: rs) with
    | none => left; simp [viaRoutePipeline, hfd]
    | some drows =>
      cases hat : astypeFloat (sort_index_desc drows) with
      | none => left; simp [viaRoutePipeline, hfd, hat]
      | some nrows =>
        cases facet with
        | inl f =>
          left
          cases series <;> simp [viaRoutePipeline, hfd, hat]
        | inr fs =>
          cases series with
          | inl s => left; simp [viaRoutePipeline, hfd, hat]
          | inr ss =>
            rcases hsm : selectMulti di fs nrows with ⟨fa, o⟩
            have hfa := selectMulti_facetAfter di fs nrows
            rw [hsm] at hfa
            rcases hfa with hfa | ⟨lab, hfa⟩
            · left
              cases o <;> simp [viaRoutePipeline, hfd, hat, hsm] <;> exact hfa
            · right
              refine ⟨fs, lab, rfl, ?_⟩
              cases o <;> simp [viaRoutePipeline, hfd, hat, hsm] <;> exact hfa

theorem viaRoutePipeline_ok {di : String} {series facet : String ⊕ List String}
    {rows : List RawRow} {t : Table}
    (h : (viaRoutePipeline di series facet rows).2 = .ok t) :
    t.rows ≠ [] ∧
      List.Pairwise (fun a b : Date × List Cell => b.1.key ≤ a.1.key) t.rows := by
  cases rows with
  | nil => simp [viaRoutePipeline] at h
  | cons r0 rs =>
    cases hfd : format_date (r0 :: rs) with
    | none => simp [viaRoutePipeline, hfd] at h
    | some drows =>
      cases hat : astypeFloat (sort_index_desc drows) with
      | none => simp [viaRoutePipeline, hfd, hat] at h
      | some nrows =>
        have hdates : nrows.map NRow.date = (sort_index_desc drows).map DRow.date :=
          astypeFloat_dates hat
        have hne : nrows ≠ [] := by
          intro hnil
          have h1 : drows.length = rs.length + 1 := format_date_length hfd
          have h2 : (sort_index_desc drows).length = drows.length :=
            (sort_index_desc_perm drows).length_eq
          have h3 : nrows.length = (sort_index_desc drows).length := by
            have := congrArg List.length hdates
            simpa using this
          rw [hnil] at h3
          simp at h3
          omega
        cases facet with
        | inl f =>
          cases series with
          | inl s =>
            simp only [viaRoutePipeline, hfd, hat, Except.ok.injEq] at h
            exact table_rows_facts (h ▸ selectSingle_dates di nrows) hdates hne
          | inr ss =>
            simp only [viaRoutePipeline, hfd, hat, Except.ok.injEq] at h
            exact table_rows_facts (h ▸ fullTable_dates di nrows) hdates hne
        | inr fs =>
          cases series with
          | inl s =>
            simp only [viaRoutePipeline, hfd, hat, Except.ok.injEq] at h
            exact table_rows_facts (h ▸ fullTable_dates di nrows) hdates hne
          | inr ss =>
            rcases hsm : selectMulti di fs nrows with ⟨fa, o⟩
            cases o with
            | none => simp [viaRoutePipeline, hfd, hat, hsm] at h
            | some t2 =>
              simp only [viaRoutePipeline, hfd, hat, hsm, Except.ok.injEq] at h
              exact table_rows_facts (h ▸ selectMulti_dates hsm) hdates hne


/-!
## Claim theorems
-/

/-- C3: on a retryable HTTP failure the fetch is retried, with the waits
drawn as a random fraction of an exponentially growing envelope, up to a
maximum of 10 attempts, after which the causing error is surfaced; a 403
response is never retried and surfaces immediately on the first attempt;
and a success within the ceiling stops the loop at that attempt. -/
theorem claim_c3_retry (s : Nat → Nat) :
    (get_response s).1 ≤ max_tries
    ∧ ((∀ k, k < max_tries → 400 ≤ s k ∧ s k ≠ 403) →
        get_response s = (max_tries, .error (s (max_tries - 1))))
    ∧ (s 0 = 403 → get_response s = (1, .error 403))
    ∧ (∀ k, k < max_tries → (∀ j, j < k → 400 ≤ s j ∧ s j ≠ 403) → s k < 400 →
        get_response s = (k + 1, .ok k))
    ∧ (∀ n r, 0 ≤ r → r ≤ 1 →
        0 ≤ fullJitter (expoWait n) r ∧ fullJitter (expoWait n) r ≤ (expoWait n : ℚ)) := by
  refine ⟨runAttempts_le s max_tries 0, ?_, ?_, ?_, ?_⟩
  · intro h
    have h2 := runAttempts_allfail s max_tries 0 (by norm_num [max_tries])
      (fun j hj => by simpa using h j hj)
    simpa [get_response] using h2
  · intro h403
    have h2 := runAttempts_giveup s 0 max_tries h403 (by norm_num [max_tries])
    simpa [get_response] using h2
  · intro k hk hprev hsucc
    have h2 := runAttempts_success s k max_tries 0 hk
      (fun j hj => by simpa using hprev j hj) (by simpa using hsucc)
    simpa [get_response] using h2
  · intro n r h0 h1
    constructor
    · exact mul_nonneg h0 (by positivity)
    · calc fullJitter (expoWait n) r = r * (expoWait n : ℚ) := rfl
        _ ≤ 1 * (expoWait n : ℚ) := by
              apply mul_le_mul_of_nonneg_right h1
              positivity
        _ = (expoWait n : ℚ) := one_mul _

/-- C3 witness: ten straight 500s exhaust the ten tries and surface the
error; a 403 surfaces on attempt one; 500, 500, 500 then 200 succeeds on
attempt four. -/
theorem claim_c3_retry_witness :
    get_response (fun _ => 500) = (max_tries, .error 500)
    ∧ get_response (fun _ => 403) = (1, .error 403)
    ∧ get_response (fun k => if k < 3 then 500 else 200) = (4, .ok 3) := by
  refine ⟨?_, ?_, ?_⟩
  · exact (claim_c3_retry (fun _ => 500)).2.1 (fun k _ => by norm_num)
  · exact (claim_c3_retry (fun _ => 403)).2.2.1 rfl
  · exact (claim_c3_retry (fun k => if k < 3 then 500 else 200)).2.2.2.1 3
      (by norm_num [max_tries]) (fun j hj => by simp [hj]) (by norm_num)

/-- C4 counterexample: when the first record is a bare year, "-01-01" is
appended to EVERY period, so a later record holding a full date makes
`pd.to_datetime` raise instead of parsing the date to itself — the
per-record reading of the claim is false. -/
theorem claim_c4_counterexample :
    format_date [⟨"2020", "1.0", []⟩, ⟨"2019-05-03", "2.0", []⟩] = none := by decide

/-- C4 amended: the granularity dispatch is decided by the first record
only; under that dispatch each record round-trips: with a length-4 first
period every period gets "-01-01" appended before parsing, otherwise each
period is parsed as it stands; a single bare-year record normalizes to
January 1st and a single full-date record to itself. -/
theorem claim_c4_roundtrip (rows : List RawRow) (drows : List DRow) (r0 : RawRow)
    (rest : List RawRow) (hr : rows = r0 :: rest) (h : format_date rows = some drows) :
    (r0.period.length = 4 →
      List.Forall₂ (fun (r : RawRow) (d : DRow) =>
        parseDate (r.period ++ "-01-01") = some d.date ∧ d.value = r.value ∧ d.extra = r.extra)
        rows drows)
    ∧ (r0.period.length ≠ 4 →
      List.Forall₂ (fun (r : RawRow) (d : DRow) =>
        parseDate r.period = some d.date ∧ d.value = r.value ∧ d.extra = r.extra)
        rows drows)
    ∧ (∀ v e, format_date [⟨"2020", v, e⟩] = some [⟨⟨2020, 1, 1⟩, v, e⟩])
    ∧ (∀ v e, format_date [⟨"2020-05-03", v, e⟩] = some [⟨⟨2020, 5, 3⟩, v, e⟩]) := by
  subst hr
  refine ⟨?_, ?_, fun v e => rfl, fun v e => rfl⟩
  · intro h4
    simp only [format_date] at h
    rw [if_pos (by simp [h4])] at h
    exact mapDates_forall₂ h
  · intro h4
    simp only [format_date] at h
    rw [if_neg (by simp [h4])] at h
    exact mapDates_forall₂ h

/-- C4 witness: the amended round-trip evaluated on a concrete yearly row. -/
theorem claim_c4_roundtrip_witness :
    List.Forall₂ (fun (r : RawRow) (d : DRow) =>
      parseDate (r.period ++ "-01-01") = some d.date ∧ d.value = r.value ∧ d.extra = r.extra)
      [⟨"2021", "3", []⟩] [⟨⟨2021, 1, 1⟩, "3", []⟩] :=
  (claim_c4_roundtrip [⟨"2021", "3", []⟩] [⟨⟨2021, 1, 1⟩, "3", []⟩] ⟨"2021", "3", []⟩ []
    rfl rfl).1 rfl

/-- C5: in the NA-replace/astype(float) step, every "NA" cell becomes a
missing value, every other cell is coerced through the float parser, and a
cell that is neither "NA" nor numeric makes the conversion raise rather
than being dropped. -/
theorem claim_c5_na_coercion (l : List DRow) :
    ((∀ r ∈ l, r.value = "NA" ∨ (parseFloat r.value).isSome) →
      ∃ ns, astypeFloat l = some ns ∧
        List.Forall₂ (fun (d : DRow) (n : NRow) => n.date = d.date ∧ n.extra = d.extra ∧
          n.value = (if d.value = "NA" then none else parseFloat d.value)) l ns)
    ∧ (∀ r ∈ l, r.value ≠ "NA" → parseFloat r.value = none → astypeFloat l = none) := by
  constructor
  · intro h
    obtain ⟨ns, hns⟩ := astypeFloat_total h
    exact ⟨ns, hns, (astypeFloat_forall₂ hns).imp (fun a b hab => ⟨hab.1, hab.2.1, hab.2.2.1⟩)⟩
  · intro r hr h1 h2
    exact astypeFloat_none_of_bad hr h1 h2

/-- C5 witness: an "NA" cell becomes missing next to a parsed number, and a
stray non-numeric cell raises. -/
theorem claim_c5_na_coercion_witness :
    (∃ ns, astypeFloat [⟨⟨2022, 1, 1⟩, "NA", []⟩, ⟨⟨2022, 1, 2⟩, "4.25", []⟩] = some ns ∧
      List.Forall₂ (fun (d : DRow) (n : NRow) => n.date = d.date ∧ n.extra = d.extra ∧
        n.value = (if d.value = "NA" then none else parseFloat d.value))
        [⟨⟨2022, 1, 1⟩, "NA", []⟩, ⟨⟨2022, 1, 2⟩, "4.25", []⟩] ns)
    ∧ astypeFloat [⟨⟨2022, 1, 3⟩, "oops", []⟩] = none :=
  ⟨(claim_c5_na_coercion [⟨⟨2022, 1, 1⟩, "NA", []⟩, ⟨⟨2022, 1, 2⟩, "4.25", []⟩]).1 (by decide),
   (claim_c5_na_coercion [⟨⟨2022, 1, 3⟩, "oops", []⟩]).2 ⟨⟨2022, 1, 3⟩, "oops", []⟩
     (by decide) (by decide) (by decide)⟩

/-- C6 counterexample: at today = 2026-10-12 the default start date is
1956-10-12 (70 years back, not the claimed 60) and the default end date is
2031-10-12 (5 years forward, not the claimed 50). -/
theorem claim_c6_counterexample :
    startDateDefault ⟨2026, 10, 12⟩ = ⟨1956, 10, 12⟩
    ∧ startDateDefault ⟨2026, 10, 12⟩ ≠ ⟨1966, 10, 12⟩
    ∧ endDateDefault ⟨2026, 10, 12⟩ = ⟨2031, 10, 12⟩
    ∧ endDateDefault ⟨2026, 10, 12⟩ ≠ ⟨2076, 10, 12⟩ := by decide

/-- C6 amended: the omitted start date defaults to 840 months = 70 years
before the current date and the omitted end date to 60 months = 5 years
after it (same month, day clamped to the target month's length). -/
theorem claim_c6_defaults (t : Date) (h1 : 1 ≤ t.month) (h2 : t.month ≤ 12)
    (h3 : 70 ≤ t.year) :
    startDateDefault t = ⟨t.year - 70, t.month, min t.day (daysInMonth (t.year - 70) t.month)⟩
    ∧ endDateDefault t = ⟨t.year + 5, t.month, min t.day (daysInMonth (t.year + 5) t.month)⟩ :=
  ⟨startDateDefault_spec t h1 h2 h3, endDateDefault_spec t h1 h2⟩

/-- C6 witness: the amended defaults evaluated at 2026-05-31. -/
theorem claim_c6_defaults_witness :
    startDateDefault ⟨2026, 5, 31⟩ = ⟨1956, 5, 31⟩
    ∧ endDateDefault ⟨2026, 5, 31⟩ = ⟨2031, 5, 31⟩ := by
  have h := claim_c6_defaults ⟨2026, 5, 31⟩ (by decide) (by decide) (by decide)
  refine ⟨?_, ?_⟩
  · rw [h.1]; decide
  · rw [h.2]; decide

/-- C7: the date-window mask of get_series keeps exactly the records whose
date lies inside [start_date, end_date], inclusive at both ends — a record
dated exactly at a bound is retained, one strictly outside is removed, and
the mask is a total row-by-row filter, indifferent to the (descending)
order of the index. -/
theorem claim_c7_window (sd ed : Date) (rows : List DRow) (r : DRow) :
    r ∈ filterWindow sd ed rows ↔
      r ∈ rows ∧ sd.key ≤ r.date.key ∧ r.date.key ≤ ed.key := by
  simp [filterWindow, List.mem_filter, and_assoc]

/-- C7 witness: a record dated exactly at the start bound is retained on a
descending index. -/
theorem claim_c7_window_witness :
    (⟨⟨2020, 1, 1⟩, "1", []⟩ : DRow) ∈ filterWindow ⟨2020, 1, 1⟩ ⟨2020, 2, 1⟩
      [⟨⟨2020, 2, 1⟩, "2", []⟩, ⟨⟨2020, 1, 1⟩, "1", []⟩, ⟨⟨2019, 12, 31⟩, "0", []⟩] :=
  (claim_c7_window ⟨2020, 1, 1⟩ ⟨2020, 2, 1⟩
    [⟨⟨2020, 2, 1⟩, "2", []⟩, ⟨⟨2020, 1, 1⟩, "1", []⟩, ⟨⟨2019, 12, 31⟩, "0", []⟩]
    ⟨⟨2020, 1, 1⟩, "1", []⟩).mpr ⟨by decide, by decide, by decide⟩

/-- C10: a facet/series kind mismatch (one a string, the other a list, in
either orientation) makes get_series_via_route raise the ValueError whose
payload names both received arguments, with no request URL issued. -/
theorem claim_c10_mismatch (fetch : String → List RawRow) (tok route freq sd ed di : String)
    (off lim : Nat) (f s : String) (fs ss : List String) :
    get_series_via_route fetch tok route (.inr ss) freq (.inl f) sd ed di off lim
      = ⟨[], .inl f, .error (.mismatch (.inl f) (.inr ss))⟩
    ∧ get_series_via_route fetch tok route (.inl s) freq (.inr fs) sd ed di off lim
      = ⟨[], .inr fs, .error (.mismatch (.inr fs) (.inl s))⟩ :=
  ⟨rfl, rfl⟩


/-- C2 counterexample: a zero-row fetch in get_series does not raise an
error naming the requested series — `pd.DataFrame([])` has no columns, so
the window comparison / value-column lookup fails with an error that
carries no series name. -/
theorem claim_c2_counterexample :
    get_series (fun _ => []) "tk" "NG.RNGC1.W" "value" "2020-01-01" "2021-01-01"
      = .error .emptyFrame := rfl

/-- C2 amended: get_series_via_route raises the ValueError naming the
requested series whenever the fetched data array is empty (the date window
is applied server-side, so a window outside history also raises);
get_series returns the emptied frame intact when the client-side window
filters every row of a successfully fetched series; and a zero-row fetch in
get_series fails with the column-less-frame error, which names no series. -/
theorem claim_c2_empty :
    (∀ (fetch : String → List RawRow) (tok route : String)
        (series facet : String ⊕ List String) (freq sd ed di : String) (off lim : Nat)
        (fp : String),
      facetParams facet series = .ok fp →
      fetch (routeUrl tok route freq di sd ed fp off lim) = [] →
      (get_series_via_route fetch tok route series freq facet sd ed di off lim).result
        = .error (.emptyData series))
    ∧ (∀ (fetch : String → List RawRow) (tok sid di sd ed : String) (r0 : RawRow)
        (rest : List RawRow) (drows : List DRow) (SD ED : Date),
      fetch (seriesUrl tok sid) = r0 :: rest →
      format_date (r0 :: rest) = some drows →
      parseDate sd = some SD →
      parseDate ed = some ED →
      (∀ d ∈ drows, ¬(SD.key ≤ d.date.key ∧ d.date.key ≤ ED.key)) →
      get_series fetch tok sid di sd ed = .ok ⟨di :: r0.extra.map Prod.fst, []⟩)
    ∧ (∀ (fetch : String → List RawRow) (tok sid di sd ed : String),
      fetch (seriesUrl tok sid) = [] →
      get_series fetch tok sid di sd ed = .error .emptyFrame) := by
  refine ⟨?_, ?_, ?_⟩
  · intro fetch tok route series facet freq sd ed di off lim fp hfp hempty
    simp only [get_series_via_route, hfp]
    rw [hempty]
    rfl
  · intro fetch tok sid di sd ed r0 rest drows SD ED hfetch hfd hsd hed houtside
    have hfil : filterWindow SD ED drows = [] := by
      unfold filterWindow
      rw [List.filter_eq_nil_iff]
      intro a ha
      have h2 := houtside a ha
      simp only [Bool.and_eq_true, decide_eq_true_eq]
      exact fun hh => h2 ⟨hh.1, hh.2⟩
    simp only [get_series]
    rw [hfetch]
    simp only [seriesPipeline, hfd, hsd, hed, hfil]
    rfl
  · intro fetch tok sid di sd ed hfetch
    simp only [get_series]
    rw [hfetch]
    rfl

/-- C2 witness: the three amended behaviours evaluated on concrete data. -/
theorem claim_c2_empty_witness :
    (get_series_via_route (fun _ => []) "tk" "steo" (.inl "PADI") "monthly" (.inl "seriesId")
        "2020-01-01" "2021-01-01" "value" 0 5000).result
      = .error (.emptyData (.inl "PADI"))
    ∧ get_series (fun _ => [⟨"2020-01-15", "1.5", [("seriesDescription", "W")]⟩]) "tk" "ID2"
        "value" "2021-01-01" "2022-01-01"
      = .ok ⟨["value", "seriesDescription"], []⟩
    ∧ get_series (fun _ => []) "tk" "ID3" "value" "2020-01-01" "2021-01-01"
      = .error .emptyFrame := by
  refine ⟨?_, ?_, ?_⟩
  · exact claim_c2_empty.1 (fun _ => []) "tk" "steo" (.inl "PADI") (.inl "seriesId")
      "monthly" "2020-01-01" "2021-01-01" "value" 0 5000 "&facets[seriesId][]=PADI" rfl rfl
  · exact claim_c2_empty.2.1 (fun _ => [⟨"2020-01-15", "1.5", [("seriesDescription", "W")]⟩])
      "tk" "ID2" "value" "2021-01-01" "2022-01-01"
      ⟨"2020-01-15", "1.5", [("seriesDescription", "W")]⟩ []
      [⟨⟨2020, 1, 15⟩, "1.5", [("seriesDescription", "W")]⟩] ⟨2021, 1, 1⟩ ⟨2022, 1, 1⟩
      rfl rfl rfl rfl (by decide)
  · exact claim_c2_empty.2.2 (fun _ => []) "tk" "ID3" "value" "2020-01-01" "2021-01-01" rfl

/-- C8 counterexample: two response rows sharing one period survive intact —
the returned index is merely non-increasing, not strictly descending. -/
theorem claim_c8_counterexample :
    (get_series_via_route
        (fun _ => [⟨"2023-07-01", "1.0", [("series-description", "DD"), ("series", "S1")]⟩,
                   ⟨"2023-07-01", "2.0", [("series-description", "DD"), ("series", "S1")]⟩])
        "tk" "steo" (.inl "S1") "monthly" (.inl "series")
        "2023-01-01" "2024-01-01" "value" 0 5000).result
      = .ok ⟨["DD"], [(⟨2023, 7, 1⟩, [.num (some ⟨10, 1⟩)]),
                      (⟨2023, 7, 1⟩, [.num (some ⟨20, 1⟩)])]⟩
    ∧ ¬ List.Pairwise (fun a b : Date × List Cell => b.1.key < a.1.key)
        [(⟨2023, 7, 1⟩, [Cell.num (some ⟨10, 1⟩)]),
         (⟨2023, 7, 1⟩, [Cell.num (some ⟨20, 1⟩)])] := by
  decide

/-- C8 amended: every frame get_series_via_route returns is non-empty and
its date index is sorted in non-increasing (weakly descending) order;
duplicate dates are possible since nothing deduplicates the index. -/
theorem claim_c8_sorted (fetch : String → List RawRow) (tok route : String)
    (series facet : String ⊕ List String) (freq sd ed di : String) (off lim : Nat)
    (t : Table)
    (h : (get_series_via_route fetch tok route series freq facet sd ed di off lim).result
      = .ok t) :
    t.rows ≠ [] ∧
      List.Pairwise (fun a b : Date × List Cell => b.1.key ≤ a.1.key) t.rows := by
  cases hfp : facetParams facet series with
  | error e => simp [get_series_via_route, hfp] at h
  | ok fp =>
    simp only [get_series_via_route, hfp] at h
    exact viaRoutePipeline_ok h

/-- C8 witness: the amended theorem evaluated on a two-row response. -/
theorem claim_c8_sorted_witness :
    (⟨["P"], [(⟨2024, 2, 1⟩, [Cell.num (some ⟨1, 0⟩)]),
              (⟨2024, 1, 1⟩, [Cell.num (some ⟨2, 0⟩)])]⟩ : Table).rows ≠ []
    ∧ List.Pairwise (fun a b : Date × List Cell => b.1.key ≤ a.1.key)
        (⟨["P"], [(⟨2024, 2, 1⟩, [Cell.num (some ⟨1, 0⟩)]),
                  (⟨2024, 1, 1⟩, [Cell.num (some ⟨2, 0⟩)])]⟩ : Table).rows :=
  claim_c8_sorted
    (fun _ => [⟨"2024-02-01", "1", [("productName", "P")]⟩,
               ⟨"2024-01-01", "2", [("productName", "P")]⟩])
    "tk" "total-energy" (.inl "PATWPUS") (.inl "msn") "monthly"
    "2024-01-01" "2024-03-01" "value" 0 5000
    ⟨["P"], [(⟨2024, 2, 1⟩, [Cell.num (some ⟨1, 0⟩)]),
             (⟨2024, 1, 1⟩, [Cell.num (some ⟨2, 0⟩)])]⟩ (by decide)

/-- C9 counterexample: the caller's facet list is mutated — after a
multi-series call it carries the derived value-column label as an extra
element, so the arguments are not unchanged. -/
theorem claim_c9_counterexample :
    (get_series_via_route
        (fun _ => [⟨"2021-03-01", "1.5", [("series", "AAA"), ("series-description", "Desc A")]⟩])
        "tk" "rt" (.inr ["AAA", "BBB"]) "monthly" (.inr ["series", "series"])
        "2020-01-01" "2022-01-01" "value" 0 5000).facetAfter
      = .inr ["series", "series", "Desc A"]
    ∧ (get_series_via_route
        (fun _ => [⟨"2021-03-01", "1.5", [("series", "AAA"), ("series-description", "Desc A")]⟩])
        "tk" "rt" (.inr ["AAA", "BBB"]) "monthly" (.inr ["series", "series"])
        "2020-01-01" "2022-01-01" "value" 0 5000).facetAfter
      ≠ .inr ["series", "series"] := by
  decide

/-- C9 amended: beyond the network call the only argument mutation is the
facet list — the facet argument either comes back unchanged or, in the
list/list branch when a descriptive column is present, with the derived
value-column label appended; all other cases leave it untouched. -/
theorem claim_c9_frame (fetch : String → List RawRow) (tok route : String)
    (series facet : String ⊕ List String) (freq sd ed di : String) (off lim : Nat) :
    (get_series_via_route fetch tok route series freq facet sd ed di off lim).facetAfter
      = facet
    ∨ ∃ fs lab, facet = Sum.inr fs ∧
        (get_series_via_route fetch tok route series freq facet sd ed di off lim).facetAfter
          = Sum.inr (fs ++ [lab]) := by
  cases hfp : facetParams facet series with
  | error e => left; simp [get_series_via_route, hfp]
  | ok fp =>
    have h := viaRoutePipeline_facetAfter di series facet
      (fetch (routeUrl tok route freq di sd ed fp off lim))
    rcases h with h | ⟨fs, lab, hfacet, h⟩
    · left
      simp only [get_series_via_route, hfp]
      exact h
    · right
      refine ⟨fs, lab, hfacet, ?_⟩
      simp only [get_series_via_route, hfp]
      exact h


/-- C1 counterexample: a two-element series list produces ONE request, not
two — and the returned frame has the two facet columns plus a single value
column, not one value column per requested series. -/
theorem claim_c1_counterexample :
    (get_series_via_route
        (fun _ => [⟨"2024-01-02", "3.5", [("series", "RNGC1"), ("series-description", "NG c1")]⟩,
                   ⟨"2024-01-02", "3.6", [("series", "RNGC2"), ("series-description", "NG c2")]⟩])
        "tk" "natural-gas/pri/fut" (.inr ["RNGC1", "RNGC2"]) "daily" (.inr ["series", "series"])
        "2024-01-01" "2024-02-01" "value" 0 5000).urls.length = 1
    ∧ ¬ (get_series_via_route
        (fun _ => [⟨"2024-01-02", "3.5", [("series", "RNGC1"), ("series-description", "NG c1")]⟩,
                   ⟨"2024-01-02", "3.6", [("series", "RNGC2"), ("series-description", "NG c2")]⟩])
        "tk" "natural-gas/pri/fut" (.inr ["RNGC1", "RNGC2"]) "daily" (.inr ["series", "series"])
        "2024-01-01" "2024-02-01" "value" 0 5000).urls.length = 2
    ∧ (get_series_via_route
        (fun _ => [⟨"2024-01-02", "3.5", [("series", "RNGC1"), ("series-description", "NG c1")]⟩,
                   ⟨"2024-01-02", "3.6", [("series", "RNGC2"), ("series-description", "NG c2")]⟩])
        "tk" "natural-gas/pri/fut" (.inr ["RNGC1", "RNGC2"]) "daily" (.inr ["series", "series"])
        "2024-01-01" "2024-02-01" "value" 0 5000).result
      = .ok ⟨["series", "series", "NG c1"],
            [(⟨2024, 1, 2⟩, [.str "RNGC1", .str "RNGC1", .num (some ⟨35, 1⟩)]),
             (⟨2024, 1, 2⟩, [.str "RNGC2", .str "RNGC2", .num (some ⟨36, 1⟩)])]⟩ := by
  decide

/-- C1 amended: a list of n series issues a single request whose query holds
the n zipped `facets[f][]=s` parameters; the response is normalized once as
one frame, and when every fetched row carries a descriptive column the
returned columns are the caller's facet names followed by exactly one value
column, labelled by a description cell — there is no per-series request
fan-out and no outer join. -/
theorem claim_c1_single_request (fetch : String → List RawRow)
    (tok route freq sd ed di : String) (off lim : Nat) (fs ss : List String) :
    (get_series_via_route fetch tok route (.inr ss) freq (.inr fs) sd ed di off lim).urls
      = [routeUrl tok route freq di sd ed (multiFacetParams fs ss) off lim]
    ∧ (∀ t,
        (get_series_via_route fetch tok route (.inr ss) freq (.inr fs) sd ed di off lim).result
          = .ok t →
        (∀ r ∈ fetch (routeUrl tok route freq di sd ed (multiFacetParams fs ss) off lim),
          (findDescPair r.extra).isSome) →
        ∃ lab, t.cols = fs ++ [lab]) := by
  constructor
  · rfl
  · intro t ht hdesc
    simp only [get_series_via_route, facetParams] at ht
    cases hrows : fetch (routeUrl tok route freq di sd ed (multiFacetParams fs ss) off lim) with
    | nil =>
      rw [hrows] at ht
      simp [viaRoutePipeline] at ht
    | cons r0 rs =>
      rw [hrows] at ht
      cases hfd : format_date (r0 :: rs) with
      | none => simp [viaRoutePipeline, hfd] at ht
      | some drows =>
        cases hat : astypeFloat (sort_index_desc drows) with
        | none => simp [viaRoutePipeline, hfd, hat] at ht
        | some nrows =>
          simp only [viaRoutePipeline, hfd, hat] at ht
          rcases hsm : selectMulti di fs nrows with ⟨fa, o⟩
          rw [hsm] at ht
          cases o with
          | none => simp at ht
          | some t2 =>
            simp only [Except.ok.injEq] at ht
            subst ht
            cases hn : nrows with
            | nil => rw [hn] at hsm; simp [selectMulti] at hsm
            | cons n0 ntl =>
              rw [hn] at hsm
              cases hfdp : findDescPair n0.extra with
              | some pr =>
                cases hsr : selectRows pr.2 (fs ++ [pr.2]) (n0 :: ntl) with
                | none => simp [selectMulti, hfdp, hsr] at hsm
                | some rs2 =>
                  simp only [selectMulti, hfdp, hsr, Prod.mk.injEq, Option.some.injEq] at hsm
                  refine ⟨pr.2, ?_⟩
                  rw [← hsm.2]
              | none =>
                have hiss := pipeline_extra_isSome hfd hat
                  (fun r hr => hdesc r (by rw [hrows]; exact hr)) n0
                  (by rw [hn]; exact List.mem_cons_self ..)
                rw [hfdp] at hiss
                simp at hiss

/-- C1 witness: the amended statement evaluated on a one-element series
list with a concrete response. -/
theorem claim_c1_single_request_witness :
    (get_series_via_route
        (fun _ => [⟨"2020-05-06", "1.25", [("series", "A"), ("series-description", "D")]⟩])
        "tk" "rt" (.inr ["A"]) "m" (.inr ["series"]) "2020-01-01" "2021-01-01"
        "value" 0 5000).urls
      = [routeUrl "tk" "rt" "m" "value" "2020-01-01" "2021-01-01"
          (multiFacetParams ["series"] ["A"]) 0 5000]
    ∧ ∃ lab, (⟨["series", "D"],
        [(⟨2020, 5, 6⟩, [Cell.str "A", Cell.num (some ⟨125, 2⟩)])]⟩ : Table).cols
        = ["series"] ++ [lab] :=
  ⟨(claim_c1_single_request
      (fun _ => [⟨"2020-05-06", "1.25", [("series", "A"), ("series-description", "D")]⟩])
      "tk" "rt" "m" "2020-01-01" "2021-01-01" "value" 0 5000 ["series"] ["A"]).1,
   (claim_c1_single_request
      (fun _ => [⟨"2020-05-06", "1.25", [("series", "A"), ("series-description", "D")]⟩])
      "tk" "rt" "m" "2020-01-01" "2021-01-01" "value" 0 5000 ["series"] ["A"]).2
      ⟨["series", "D"], [(⟨2020, 5, 6⟩, [Cell.str "A", Cell.num (some ⟨125, 2⟩)])]⟩
      (by decide) (by decide)⟩

end Myeia
